import Mathlib

/-
  Verification development for the treblle-flask telemetry agent.

  The Python sources are shallowly embedded:
  * `PyVal`/`PyList`/`PyDict` model the JSON-like Python values that flow
    through the masking engine (dicts keep insertion order, as Python does).
  * `pyRepr`/`pyStr` model Python's `repr`/`str` on those values (string
    escaping inside `repr` is approximated by plain quoting; no theorem
    below depends on the escaping details, only on `str` of a `str` being
    the identity and on lengths being computed from whatever `pyStr` yields,
    exactly as the source computes `len(str(value))`).
  * `isBase64Image`, `maskData`, `maskAuthHeader`, the header-masking loops,
    the client-IP derivation, the request/response body handling and the
    publisher's endpoint rotation are translated function by function from
    `treblle_flask/telemetry_gatherer.py` and
    `treblle_flask/telemetry_publisher.py`.
  * Calls into the Python standard library (`json.loads`, user transform
    hooks) are oracles passed as function arguments; `binascii.a2b_base64`
    (used via `base64.b64decode`) is modelled by `pyB64Decode`.
-/

/- ---------------------------------------------------------------- -/
/- Python-like values                                               -/
/- ---------------------------------------------------------------- -/

mutual

inductive PyVal : Type where
  | str : String → PyVal
  | int : Int → PyVal
  | bool : Bool → PyVal
  | none : PyVal
  | list : PyList → PyVal
  | dict : PyDict → PyVal

inductive PyList : Type where
  | nil : PyList
  | cons : PyVal → PyList → PyList

inductive PyDict : Type where
  | nil : PyDict
  | cons : String → PyVal → PyDict → PyDict

end

/-- Python single-quote character, used by our model of `repr`. -/
def pyQuote : String := String.mk [Char.ofNat 39]

mutual

/-- Models Python `repr` on JSON-like values (string escaping approximated
by bare single quotes). -/
def pyRepr : PyVal → String
  | PyVal.str s => pyQuote ++ s ++ pyQuote
  | PyVal.int i => toString i
  | PyVal.bool b => if b then "True" else "False"
  | PyVal.none => "None"
  | PyVal.list l => "[" ++ pyReprList l ++ "]"
  | PyVal.dict d => "\x7b" ++ pyReprDict d ++ "\x7d"

/-- Elements of a list, comma separated, as Python `repr` prints them. -/
def pyReprList : PyList → String
  | PyList.nil => ""
  | PyList.cons v PyList.nil => pyRepr v
  | PyList.cons v rest => pyRepr v ++ ", " ++ pyReprList rest

/-- Entries of a dict, comma separated, as Python `repr` prints them. -/
def pyReprDict : PyDict → String
  | PyDict.nil => ""
  | PyDict.cons k v PyDict.nil => pyQuote ++ k ++ pyQuote ++ ": " ++ pyRepr v
  | PyDict.cons k v rest =>
      pyQuote ++ k ++ pyQuote ++ ": " ++ pyRepr v ++ ", " ++ pyReprDict rest

end

/-- Models Python `str`: the identity on strings, `repr` on everything else
(which is what `str` agrees with on numbers, booleans, `None`, lists and
dicts). -/
def pyStr : PyVal → String
  | PyVal.str s => s
  | v => pyRepr v

/- ---------------------------------------------------------------- -/
/- Base64 image heuristic (TelemetryGatherer._is_base64_image)      -/
/- ---------------------------------------------------------------- -/

/-- Characters of the base64 alphabet `[A-Za-z0-9+/]`. -/
def isB64Char (c : Char) : Bool :=
  ('A' ≤ c && c ≤ 'Z') || ('a' ≤ c && c ≤ 'z') || ('0' ≤ c && c ≤ '9') ||
    c = '+' || c = '/'

/-- Value of a base64 digit, `Option.none` for characters outside the
alphabet. -/
def b64DigitVal (c : Char) : Option Nat :=
  if 'A' ≤ c && c ≤ 'Z' then Option.some (c.toNat - 65)
  else if 'a' ≤ c && c ≤ 'z' then Option.some (c.toNat - 97 + 26)
  else if '0' ≤ c && c ≤ '9' then Option.some (c.toNat - 48 + 52)
  else if c = '+' then Option.some 62
  else if c = '/' then Option.some 63
  else Option.none

/-- Turns a list of base64 digit values into bytes: each complete group of
four digits yields three bytes, a trailing group of two or three digits
yields one or two bytes. -/
def decodeQuads : List Nat → List Nat
  | a :: b :: c :: d :: rest =>
      (a * 4 + b / 16) :: ((b % 16) * 16 + c / 4) :: ((c % 4) * 64 + d) ::
        decodeQuads rest
  | [a, b] => [a * 4 + b / 16]
  | [a, b, c] => [a * 4 + b / 16, (b % 16) * 16 + c / 4]
  | _ => []

/-- Models CPython `base64.b64decode` (i.e. `binascii.a2b_base64` with
strict mode off) far enough for this development: characters outside the
base64 alphabet are skipped, a first `=` terminates the data, and decoding
fails (`Option.none`, an exception in Python) when the digit count modulo
four is 1, or is 2 or 3 without any padding character present. -/
def pyB64Decode (cs : List Char) : Option (List Nat) :=
  let digits := (cs.takeWhile (fun c => c != '=')).filterMap b64DigitVal
  if digits.length % 4 = 0 then Option.some (decodeQuads digits)
  else if digits.length % 4 = 1 then Option.none
  else if cs.contains '=' then Option.some (decodeQuads digits)
  else Option.none

/-- Byte prefixes of JPEG, PNG, GIF and RIFF files, as checked by
`decoded.startswith((b'\xff\xd8\xff', b'\x89PNG', b'GIF8', b'RIFF'))`. -/
def startsWithImageMagic (bs : List Nat) : Bool :=
  [255, 216, 255].isPrefixOf bs || [137, 80, 78, 71].isPrefixOf bs ||
    [71, 73, 70, 56].isPrefixOf bs || [82, 73, 70, 70].isPrefixOf bs

/-- Alphabetic characters, the `[a-zA-Z]` class of the data-URI pattern. -/
def isAlphaChar (c : Char) : Bool :=
  ('A' ≤ c && c ≤ 'Z') || ('a' ≤ c && c ≤ 'z')

/-- Matches the tail `[A-Za-z0-9+/]+={0,2}$` of the data-URI image pattern.
Since `=` is not in the repeated class and `$` requires the end of the
string (or a single final newline, which Python's `$` also accepts), the
greedy scan below is exactly the regex's backtracking behaviour. -/
def dataUriTail (cs : List Char) : Bool :=
  let b := cs.takeWhile isB64Char
  let rest := cs.drop b.length
  let eqs := rest.takeWhile (fun c => c == '=')
  let rest2 := rest.drop eqs.length
  decide (1 ≤ b.length) && decide (eqs.length ≤ 2) &&
    (rest2.isEmpty || rest2 == ['\n'])

/-- Matches `;base64,` followed by the base64 tail. -/
def afterImageSlash (cs : List Char) : Bool :=
  let alphas := cs.takeWhile isAlphaChar
  match cs.drop alphas.length with
  | ';' :: 'b' :: 'a' :: 's' :: 'e' :: '6' :: '4' :: ',' :: tail =>
      dataUriTail tail
  | _ => false

/-- Models `re.match(r'^data:image/[a-zA-Z]*;base64,[A-Za-z0-9+/]+={0,2}$', s)`.
The literal `data:image/` prefix is matched by an explicit pattern; since
`;` is not alphabetic and `=` is not in the base64 class, the greedy
take-while scans coincide with the regex. -/
def matchesDataUriImage (cs : List Char) : Bool :=
  match cs with
  | 'd' :: 'a' :: 't' :: 'a' :: ':' :: 'i' :: 'm' :: 'a' :: 'g' :: 'e' ::
      '/' :: rest => afterImageSlash rest
  | _ => false

/-- Placeholder substituted for hidden-key values recognized as base64
images. -/
def imagePlaceholder : String := "base64 encoded images are too big to process"

/-- Models `TelemetryGatherer._is_base64_image`: strings shorter than 100
characters are never images; otherwise first the data-URI pattern is tried,
then the first 100 characters are base64-decoded and checked for image
magic bytes (a decoding exception means `False`). -/
def isBase64Image (s : String) : Bool :=
  if s.length < 100 then false
  else if matchesDataUriImage s.toList then true
  else
    match pyB64Decode (s.toList.take 100) with
    | Option.none => false
    | Option.some bytes => startsWithImageMagic bytes

/- ---------------------------------------------------------------- -/
/- Masking engine (TelemetryGatherer._mask_data)                    -/
/- ---------------------------------------------------------------- -/

/-- ASCII lowercasing of one character; Python `str.lower` restricted to
the ASCII range, which covers every header name and hidden key this
development deals with. -/
def pyLowerChar (c : Char) : Char :=
  if 'A' ≤ c && c ≤ 'Z' then Char.ofNat (c.toNat + 32) else c

/-- Models `s.lower()` on ASCII strings. -/
def pyLower (s : String) : String := String.mk (s.toList.map pyLowerChar)

/-- Run of `n` `*` characters, as produced by `'*' * n`. -/
def stars (n : Nat) : String := String.mk (List.replicate n '*')

/-- Replacement applied to the value of a hidden key: the image placeholder
for recognized base64 images, otherwise `'*' * len(str(value))`. -/
def maskHiddenValue (v : PyVal) : PyVal :=
  if isBase64Image (pyStr v) then PyVal.str imagePlaceholder
  else PyVal.str (stars (pyStr v).length)

mutual

/-- Models `TelemetryGatherer._mask_data`: dictionaries have hidden keys
(matched on the lowercased key) replaced via `maskHiddenValue` and other
entries recursively masked; lists are masked elementwise; all other values
pass through unchanged. `hidden` models `self._hidden_keys`, which the
constructor already lowercased. -/
def maskData (hidden : List String) : PyVal → PyVal
  | PyVal.dict d => PyVal.dict (maskDict hidden d)
  | PyVal.list l => PyVal.list (maskList hidden l)
  | v => v

/-- Dictionary branch of `_mask_data`. -/
def maskDict (hidden : List String) : PyDict → PyDict
  | PyDict.nil => PyDict.nil
  | PyDict.cons k v rest =>
      if pyLower k ∈ hidden then
        PyDict.cons k (maskHiddenValue v) (maskDict hidden rest)
      else
        PyDict.cons k (maskData hidden v) (maskDict hidden rest)

/-- List branch of `_mask_data`. -/
def maskList (hidden : List String) : PyList → PyList
  | PyList.nil => PyList.nil
  | PyList.cons v rest => PyList.cons (maskData hidden v) (maskList hidden rest)

end

/- ---------------------------------------------------------------- -/
/- Authorization header masking (_mask_auth_header)                 -/
/- ---------------------------------------------------------------- -/

/-- Authentication schemes whose token survives masking, from
`TelemetryGatherer.COMMON_AUTH_SCHEMES`. -/
def COMMON_AUTH_SCHEMES : List String :=
  ["Basic", "Bearer", "Digest", "Negotiate", "OAuth", "AWS4-HMAC-SHA256",
   "HOBA", "Mutual"]

/-- Splits a character list at its first space, as `split(' ', maxsplit=1)`
does; `Option.none` when there is no space (the `' ' not in auth_header`
test of the source). -/
def splitFirstSpace : List Char → Option (List Char × List Char)
  | [] => Option.none
  | c :: rest =>
      if c = ' ' then Option.some ([], rest)
      else
        match splitFirstSpace rest with
        | Option.some (a, b) => Option.some (c :: a, b)
        | Option.none => Option.none

/-- Models `TelemetryGatherer._mask_auth_header`: a header with no space is
fully starred; otherwise the part before the first space is kept when it is
a known scheme (only the remainder starred), and the whole header is
starred when it is not. -/
def maskAuthHeader (h : String) : String :=
  match splitFirstSpace h.toList with
  | Option.none => stars h.length
  | Option.some (schemeCs, valueCs) =>
      let scheme := String.mk schemeCs
      if scheme ∈ COMMON_AUTH_SCHEMES then scheme ++ " " ++ stars valueCs.length
      else stars h.length

/- ---------------------------------------------------------------- -/
/- Header masking pre-pass (handle_request / handle_response)       -/
/- ---------------------------------------------------------------- -/

/-- Headers that are always masked, from
`TelemetryGatherer.SENSITIVE_HEADERS`. -/
def SENSITIVE_HEADERS : List String := ["authorization", "x-api-key"]

/-- Per-header masking of `handle_request`: sensitive headers are starred,
except that the authorization header goes through `maskAuthHeader` when
auth-header masking is enabled. -/
def maskRequestHeaderValue (shouldMaskAuth : Bool) (name value : String) :
    String :=
  if pyLower name ∈ SENSITIVE_HEADERS then
    if pyLower name = "authorization" && shouldMaskAuth then
      maskAuthHeader value
    else stars value.length
  else value

/-- Per-header masking of `handle_response`: every sensitive header is
starred in full, with no authorization-scheme special case. -/
def maskResponseHeaderValue (name value : String) : String :=
  if pyLower name ∈ SENSITIVE_HEADERS then stars value.length else value

/-- Header association list viewed as a Python dict of strings. -/
def headersToDict : List (String × String) → PyDict
  | [] => PyDict.nil
  | (k, v) :: rest => PyDict.cons k (PyVal.str v) (headersToDict rest)

/-- Full request-header pipeline: the sensitive-header pre-pass followed by
`_mask_data` over the resulting dict. -/
def maskRequestHeaders (shouldMaskAuth : Bool) (hidden : List String)
    (headers : List (String × String)) : PyVal :=
  maskData hidden (PyVal.dict (headersToDict
    (headers.map (fun p => (p.1, maskRequestHeaderValue shouldMaskAuth p.1 p.2)))))

/-- Full response-header pipeline: the response-side pre-pass followed by
`_mask_data`. -/
def maskResponseHeaders (hidden : List String)
    (headers : List (String × String)) : PyVal :=
  maskData hidden (PyVal.dict (headersToDict
    (headers.map (fun p => (p.1, maskResponseHeaderValue p.1 p.2)))))

/- ---------------------------------------------------------------- -/
/- Client IP derivation (handle_request)                            -/
/- ---------------------------------------------------------------- -/

/-- Decimal digit characters, the `\d` class. -/
def isDigitChar (c : Char) : Bool := '0' ≤ c && c ≤ '9'

/-- Consumes one to three digits; `Option.none` when the leading digit run
is empty or longer than three (a longer run cannot match, since the regex
requires a dot or the end of the string right after the group and a digit
is neither). -/
def ipv4Group (cs : List Char) : Option (List Char) :=
  let run := cs.takeWhile isDigitChar
  if 1 ≤ run.length && run.length ≤ 3 then Option.some (cs.drop run.length)
  else Option.none

/-- Consumes a literal dot. -/
def expectDot : List Char → Option (List Char)
  | '.' :: rest => Option.some rest
  | _ => Option.none

/-- Models `re.match(r'^(\d{1,3}\.){3}\d{1,3}$', s)` as a boolean: four
one-to-three digit groups separated by dots, followed by the end of the
string (Python's `$` also accepts a single final newline). -/
def matchesIPv4 (s : String) : Bool :=
  match (((((((ipv4Group s.toList).bind expectDot).bind ipv4Group).bind
      expectDot).bind ipv4Group).bind expectDot).bind ipv4Group) with
  | Option.some rest => rest.isEmpty || rest == ['\n']
  | Option.none => false

/-- Whitespace stripped by Python's `str.strip`. -/
def isPySpace (c : Char) : Bool :=
  c = ' ' || c = '\t' || c = '\n' || c = '\r' || c = Char.ofNat 11 ||
    c = Char.ofNat 12

/-- Models Python `str.strip()`. -/
def pyStrip (s : String) : String :=
  String.mk (((s.toList.dropWhile isPySpace).reverse.dropWhile isPySpace).reverse)

/-- Models `str.split(',')`: always yields at least one (possibly empty)
piece, and pieces never contain a comma. -/
def splitOnComma : List Char → List (List Char)
  | [] => [[]]
  | c :: rest =>
      if c = ',' then [] :: splitOnComma rest
      else
        match splitOnComma rest with
        | [] => [[c]]
        | g :: gs => (c :: g) :: gs

/-- Models `request.headers.get('X-Forwarded-For', '').split(',')[0].strip()`. -/
def firstXff (xff : String) : String :=
  pyStrip (String.mk ((splitOnComma xff.toList).headD []))

/-- Models the client-IP derivation of `handle_request` (lines 166-180):
`request_ip = x_forwarded_for or request.remote_addr or 'bogon'`, then the
comma-scan branch when the chosen value contains a comma, else the IPv4
validation with `'bogon'` fallback. -/
def computeRequestIp (xffHeader : String) (remoteAddr : Option String) :
    String :=
  let xf := firstXff xffHeader
  let rip :=
    if xf != "" then xf
    else
      match remoteAddr with
      | Option.some r => if r != "" then r else "bogon"
      | Option.none => "bogon"
  if (rip != "") && rip.toList.contains ',' then
    match ((splitOnComma rip.toList).map (fun g => pyStrip (String.mk g))).find?
        (fun ip => matchesIPv4 ip) with
    | Option.some ip => ip
    | Option.none => "bogon"
  else if (rip == "") || !(matchesIPv4 rip) then "bogon"
  else rip

/- ---------------------------------------------------------------- -/
/- Body handling (handle_request / handle_response)                 -/
/- ---------------------------------------------------------------- -/

/-- Python exception as the error-recording code sees it: class name,
stringified `args`, and the file/line of the innermost traceback frame
(`extract_tb(e.__traceback__)[-1]`). -/
structure PyExc where
  typeName : String
  args : List String
  file : String
  line : Nat
deriving DecidableEq

/-- Entry appended to `payload['data']['errors']`. -/
structure ErrorRecord where
  source : String
  type : String
  message : String
  file : String
  line : Nat
deriving DecidableEq

/-- ErrorRecord built from an exception, as in the `except Exception as e`
blocks: `', '.join(str(f) for f in e.args)` joins the args. -/
def errRecordOf (e : PyExc) : ErrorRecord :=
  ⟨"onError", e.typeName, String.intercalate ", " e.args, e.file, e.line⟩

/-- Outcome of calling a user transform hook on the body bytes: it raises,
or returns a JSON-serializable value (so the `dumps` probe succeeds), or
returns a non-serializable value, in which case `dumps` raises the carried
exception (a `TypeError` in CPython). -/
inductive TransOutcome where
  | raises : PyExc → TransOutcome
  | ok : PyVal → TransOutcome
  | okNonSerializable : PyExc → TransOutcome

/-- Python truthiness of our values, for `if request_body` / `if
response_body`. -/
def isTruthy : PyVal → Bool
  | PyVal.str s => s != ""
  | PyVal.int i => i != 0
  | PyVal.bool b => b
  | PyVal.none => false
  | PyVal.list PyList.nil => false
  | PyVal.list _ => true
  | PyVal.dict PyDict.nil => false
  | PyVal.dict _ => true

/-- Empty Python dict `{}`. -/
def emptyDict : PyVal := PyVal.dict PyDict.nil

/-- Models `self._mask_data(body) if body else {}`. -/
def maskIfTruthy (hidden : List String) (v : PyVal) : PyVal :=
  if isTruthy v then maskData hidden v else emptyDict

/-- Exception produced by `raise ValueError('Request transformer must
return a JSON serializable object')` in `handle_request` (reachable only if
`dumps` raised a `JSONDecodeError`, which CPython's `dumps` never does). -/
def requestSerializeErr : PyExc :=
  ⟨"ValueError", ["Request transformer must return a JSON serializable object"],
   "treblle_flask/telemetry_gatherer.py", 220⟩

/-- Response-side counterpart raised in `handle_response`. -/
def responseSerializeErr : PyExc :=
  ⟨"ValueError", ["Response transformer must return a JSON serializable object"],
   "treblle_flask/telemetry_gatherer.py", 289⟩

/-- Shared transformer try/except structure of both handlers: a successful,
serializable return passes through with no error; an exception from the
hook (or from the `dumps` probe) is recorded as one ErrorRecord and the
body replaced by `{}`; the inner `except JSONDecodeError: raise ValueError`
re-raise is kept for fidelity via `serializeErr`. -/
def runBodyTransformer (t : List Nat → TransOutcome) (serializeErr : PyExc)
    (data : List Nat) : PyVal × List ErrorRecord :=
  match t data with
  | TransOutcome.ok v => (v, [])
  | TransOutcome.raises e => (emptyDict, [errRecordOf e])
  | TransOutcome.okNonSerializable e =>
      if e.typeName = "JSONDecodeError" then (emptyDict, [errRecordOf serializeErr])
      else (emptyDict, [errRecordOf e])

/-- Models the body section of `handle_request` (lines 207-240): the body
starts as `{}`; when `(request.content_length or 0)` is below the limit it
is produced by the transformer (with its error contract) or by a direct
`loads` whose `JSONDecodeError` (modelled by `Option.none`) silently yields
`{}`; the result is masked when truthy. Returns the body field and the
error records appended. -/
def handleRequestBody (hidden : List String)
    (transformer : Option (List Nat → TransOutcome))
    (loads : List Nat → Option PyVal) (contentLength : Option Nat)
    (limit : Nat) (data : List Nat) : PyVal × List ErrorRecord :=
  if contentLength.getD 0 < limit then
    match transformer with
    | Option.some t =>
        let r := runBodyTransformer t requestSerializeErr data
        (maskIfTruthy hidden r.1, r.2)
    | Option.none =>
        match loads data with
        | Option.some v => (maskIfTruthy hidden v, [])
        | Option.none => (maskIfTruthy hidden emptyDict, [])
  else (emptyDict, [])

/-- Fixed response body ceiling `2 * 1024 * 1024`. -/
def MAX_RESPONSE_BODY_SIZE : Nat := 2 * 1024 * 1024

/-- ErrorRecord appended for an oversized response body. -/
def eUserErrorRecord : ErrorRecord :=
  ⟨"onError", "E_USER_ERROR", "JSON response size is over 2MB", "", 0⟩

/-- Models the body/size section of `handle_response` (lines 266-324):
streaming responses get size 0 and body `{}` with no size check; otherwise,
with or without a transformer, a body over the 2 MiB ceiling yields the
`E_USER_ERROR` record, body `{}` and size 0; below the ceiling the
transformer contract (or the silent direct parse) applies and the size is
`len(response.data)`. Returns (body, size, error records appended). -/
def handleResponseBody (hidden : List String)
    (transformer : Option (List Nat → TransOutcome))
    (loads : List Nat → Option PyVal) (streaming : Bool) (data : List Nat) :
    PyVal × Nat × List ErrorRecord :=
  if streaming then (emptyDict, 0, [])
  else
    match transformer with
    | Option.some t =>
        if data.length > MAX_RESPONSE_BODY_SIZE then
          (emptyDict, 0, [eUserErrorRecord])
        else
          let r := runBodyTransformer t responseSerializeErr data
          (maskIfTruthy hidden r.1, data.length, r.2)
    | Option.none =>
        if data.length > MAX_RESPONSE_BODY_SIZE then
          (emptyDict, 0, [eUserErrorRecord])
        else
          match loads data with
          | Option.some v => (maskIfTruthy hidden v, data.length, [])
          | Option.none => (maskIfTruthy hidden emptyDict, data.length, [])

/- ---------------------------------------------------------------- -/
/- Delivery worker (telemetry_publisher.py)                         -/
/- ---------------------------------------------------------------- -/

/-- Backend hosts from `TelemetryPublisher.BACKEND_HOSTS`. -/
def BACKEND_HOSTS : List String :=
  ["https://rocknrolla.treblle.com", "https://punisher.treblle.com",
   "https://sicario.treblle.com"]

/-- Host list fed to `itertools.cycle`: the single override when a custom
URL is configured, the fixed backend list otherwise. -/
def hostsList (customUrl : Option String) : List String :=
  match customUrl with
  | Option.some u => [u]
  | Option.none => BACKEND_HOSTS

/-- Endpoint chosen by the k-th call of `next(self._hosts_cycle)` inside
`_process_request`: the cycle is an index counter modulo the list length. -/
def deliveryEndpoint (customUrl : Option String) (k : Nat) : String :=
  (hostsList customUrl).getD (k % (hostsList customUrl).length) ""

/-- Endpoints of the n delivery attempts caused by n submitted payloads:
each `send_to_treblle` schedules exactly one `_process_request`, which
draws exactly one host from the cycle. -/
def deliveryAttempts (customUrl : Option String) (n : Nat) : List String :=
  (List.range n).map (deliveryEndpoint customUrl)

/-- Actions `send_to_treblle` performs on the calling thread. -/
inductive CallerAction where
  | scheduleOnWorkerLoop : CallerAction
  | awaitFutureResult : Nat → CallerAction
deriving DecidableEq

/-- Trace of `TelemetryPublisher.send_to_treblle` as executed by the
calling request-serving thread: `run_coroutine_threadsafe` schedules
`_process_request` on the worker loop, and `future.result(timeout=3)` then
blocks the caller (up to 3 seconds) until the network attempt finishes. -/
def sendToTreblleCallerTrace : List CallerAction :=
  [CallerAction.scheduleOnWorkerLoop, CallerAction.awaitFutureResult 3]

/-- Recognizes a blocking wait in a caller trace. -/
def isBlockingWait : CallerAction → Bool
  | CallerAction.awaitFutureResult _ => true
  | _ => false

/- ---------------------------------------------------------------- -/
/- Auxiliary definitions for the statements below                   -/
/- ---------------------------------------------------------------- -/

mutual

/-- Holds when no hidden-key value anywhere in the data is classified as a
base64 image, i.e. when no masking step produces the image placeholder. -/
def noHiddenImage (hidden : List String) : PyVal → Bool
  | PyVal.dict d => noHiddenImageDict hidden d
  | PyVal.list l => noHiddenImageList hidden l
  | _ => true

/-- Dictionary case of `noHiddenImage`. -/
def noHiddenImageDict (hidden : List String) : PyDict → Bool
  | PyDict.nil => true
  | PyDict.cons k v rest =>
      (if pyLower k ∈ hidden then !(isBase64Image (pyStr v))
       else noHiddenImage hidden v) && noHiddenImageDict hidden rest

/-- List case of `noHiddenImage`. -/
def noHiddenImageList (hidden : List String) : PyList → Bool
  | PyList.nil => true
  | PyList.cons v rest => noHiddenImage hidden v && noHiddenImageList hidden rest

end

/-- String stored under the first key of a dict value, used to tell two
masked dicts apart. -/
def firstStrVal : PyVal → String
  | PyVal.dict (PyDict.cons _ (PyVal.str s) _) => s
  | _ => ""

/-- Concrete 112-character data-URI image string, long enough for the
classifier and matching its data-URI pattern. -/
def imgStr : String := "data:image/png;base64," ++ String.mk (List.replicate 90 'A')

/- ---------------------------------------------------------------- -/
/- Helper lemmas                                                    -/
/- ---------------------------------------------------------------- -/

/-- Length of a string as the length of its character list. -/
theorem toList_length (s : String) : s.toList.length = s.length := by
  cases s; rfl

/-- Rebuilding a string from its character list is the identity. -/
theorem mk_toList (s : String) : String.mk s.toList = s := by
  cases s; rfl

/-- Character list of a concatenation. -/
theorem toList_append (a b : String) :
    (a ++ b).toList = a.toList ++ b.toList := by
  cases a; cases b; rfl

/-- Length of a star run. -/
theorem stars_length (n : Nat) : (stars n).length = n := by
  simp [stars, String.length]

/-- Star runs never start with the data-URI prefix. -/
theorem matchesDataUriImage_star (l : List Char) :
    matchesDataUriImage ('*' :: l) = false := rfl

/-- Base64 digits are never stars. -/
theorem filterMap_b64_star (m : Nat) :
    List.filterMap b64DigitVal (List.replicate m '*') = [] := by
  induction m with
  | zero => rfl
  | succ k ih =>
      rw [List.replicate_succ, List.filterMap_cons]
      simp [(by decide : b64DigitVal '*' = Option.none), ih]

/-- A star run has no padding character to stop at. -/
theorem takeWhile_star (m : Nat) :
    List.takeWhile (fun c => c != '=') (List.replicate m '*') =
      List.replicate m '*' := by
  induction m with
  | zero => rfl
  | succ k ih => rw [List.replicate_succ]; simp [List.takeWhile_cons, ih]

/-- Decoding a star run yields no bytes. -/
theorem pyB64Decode_star (k : Nat) :
    pyB64Decode (List.replicate k '*') = Option.some [] := by
  unfold pyB64Decode
  rw [takeWhile_star, filterMap_b64_star]
  simp [decodeQuads]

/-- A run of stars is never classified as a base64 image. -/
theorem stars_not_image (n : Nat) : isBase64Image (stars n) = false := by
  by_cases hn : n < 100
  · simp [isBase64Image, stars_length, hn]
  · rw [isBase64Image, stars_length, if_neg hn]
    have htl : (stars n).toList = List.replicate n '*' := rfl
    obtain ⟨m, rfl⟩ : ∃ m, n = m + 1 := ⟨n - 1, by omega⟩
    rw [htl, List.replicate_succ, matchesDataUriImage_star, ← List.replicate_succ,
      List.take_replicate, pyB64Decode_star]
    simp [startsWithImageMagic]

/-- The image placeholder itself is not classified as an image (it is 44
characters long). -/
theorem imagePlaceholder_not_image : isBase64Image imagePlaceholder = false := by
  decide

/-- Masking the value of a hidden key twice settles on a star run of the
length of the first masked output. -/
theorem maskHiddenValue_stable (v : PyVal) :
    maskHiddenValue (maskHiddenValue v) =
      PyVal.str (stars (pyStr (maskHiddenValue v)).length) := by
  by_cases hb : isBase64Image (pyStr v) = true
  · have h1 : maskHiddenValue v = PyVal.str imagePlaceholder := by
      simp [maskHiddenValue, hb]
    rw [h1]
    simp [maskHiddenValue, pyStr, imagePlaceholder_not_image]
  · have h1 : maskHiddenValue v = PyVal.str (stars (pyStr v).length) := by
      simp [maskHiddenValue, hb]
    rw [h1]
    simp [maskHiddenValue, pyStr, stars_not_image]

/-- On values not classified as images, hidden-key masking is idempotent. -/
theorem maskHiddenValue_idem (v : PyVal) (h : isBase64Image (pyStr v) = false) :
    maskHiddenValue (maskHiddenValue v) = maskHiddenValue v := by
  have h1 : maskHiddenValue v = PyVal.str (stars (pyStr v).length) := by
    simp [maskHiddenValue, h]
  rw [h1]
  simp [maskHiddenValue, pyStr, stars_not_image, stars_length]

mutual

/-- Masking is idempotent when no hidden-key value is classified as a
base64 image. -/
theorem maskData_idem (hidden : List String) :
    ∀ v : PyVal, noHiddenImage hidden v = true →
      maskData hidden (maskData hidden v) = maskData hidden v
  | PyVal.str _, _ => rfl
  | PyVal.int _, _ => rfl
  | PyVal.bool _, _ => rfl
  | PyVal.none, _ => rfl
  | PyVal.list l, h => by
      have hl : noHiddenImageList hidden l = true := by
        simpa [noHiddenImage] using h
      simp [maskData, maskList_idem hidden l hl]
  | PyVal.dict d, h => by
      have hd : noHiddenImageDict hidden d = true := by
        simpa [noHiddenImage] using h
      simp [maskData, maskDict_idem hidden d hd]

/-- Dictionary case of mask idempotence. -/
theorem maskDict_idem (hidden : List String) :
    ∀ d : PyDict, noHiddenImageDict hidden d = true →
      maskDict hidden (maskDict hidden d) = maskDict hidden d
  | PyDict.nil, _ => rfl
  | PyDict.cons k v rest, h => by
      rw [noHiddenImageDict, Bool.and_eq_true] at h
      by_cases hk : pyLower k ∈ hidden
      · have hv : isBase64Image (pyStr v) = false := by
          have := h.1
          rw [if_pos hk, Bool.not_eq_true'] at this
          exact this
        simp [maskDict, hk, maskHiddenValue_idem v hv,
          maskDict_idem hidden rest h.2]
      · have hv : noHiddenImage hidden v = true := by
          have := h.1
          rwa [if_neg hk] at this
        simp [maskDict, hk, maskData_idem hidden v hv,
          maskDict_idem hidden rest h.2]

/-- List case of mask idempotence. -/
theorem maskList_idem (hidden : List String) :
    ∀ l : PyList, noHiddenImageList hidden l = true →
      maskList hidden (maskList hidden l) = maskList hidden l
  | PyList.nil, _ => rfl
  | PyList.cons v rest, h => by
      rw [noHiddenImageList, Bool.and_eq_true] at h
      simp [maskList, maskData_idem hidden v h.1, maskList_idem hidden rest h.2]

end

/-- Splitting at the first space finds the separator after a space-free
prefix. -/
theorem splitFirstSpace_append (s v : List Char) (h : ' ' ∉ s) :
    splitFirstSpace (s ++ ' ' :: v) = Option.some (s, v) := by
  induction s with
  | nil => simp [splitFirstSpace]
  | cons c cs ih =>
      have hc : ¬ c = ' ' := by
        intro hh
        exact h (hh ▸ List.mem_cons_self c cs)
      have h2 : ' ' ∉ cs := fun hm => h (List.mem_cons_of_mem _ hm)
      simp [splitFirstSpace, hc, ih h2]

/-- Splitting fails exactly on space-free strings. -/
theorem splitFirstSpace_none (cs : List Char) (h : ' ' ∉ cs) :
    splitFirstSpace cs = Option.none := by
  induction cs with
  | nil => rfl
  | cons c rest ih =>
      have hc : ¬ c = ' ' := by
        intro hh
        exact h (hh ▸ List.mem_cons_self c rest)
      have h2 : ' ' ∉ rest := fun hm => h (List.mem_cons_of_mem _ hm)
      simp [splitFirstSpace, hc, ih h2]

/-- Splitting a string on commas never yields an empty piece list. -/
theorem splitOnComma_ne_nil (cs : List Char) : splitOnComma cs ≠ [] := by
  cases cs with
  | nil => simp [splitOnComma]
  | cons c rest =>
      rw [splitOnComma]
      by_cases hc : c = ','
      · simp [hc]
      · rw [if_neg hc]
        cases hrec : splitOnComma rest <;> simp

/-- Pieces produced by the comma split contain no comma. -/
theorem splitOnComma_no_comma (cs : List Char) :
    ∀ g ∈ splitOnComma cs, ',' ∉ g := by
  induction cs with
  | nil =>
      intro g hg
      simp [splitOnComma] at hg
      simp [hg]
  | cons c rest ih =>
      intro g hg
      by_cases hc : c = ','
      · rw [splitOnComma, if_pos hc] at hg
        rcases List.mem_cons.mp hg with rfl | hg2
        · simp
        · exact ih g hg2
      · obtain ⟨g0, gs0, heq⟩ :
            ∃ g0 gs0, splitOnComma rest = g0 :: gs0 := by
          cases hrec : splitOnComma rest with
          | nil => exact absurd hrec (splitOnComma_ne_nil rest)
          | cons a b => exact ⟨a, b, rfl⟩
        rw [splitOnComma, if_neg hc, heq] at hg
        rcases List.mem_cons.mp hg with rfl | hg2
        · intro hmem
          rcases List.mem_cons.mp hmem with hce | hg0
          · exact hc hce.symm
          · exact ih g0 (heq ▸ List.mem_cons_self g0 gs0) hg0
        · exact ih g (heq ▸ List.mem_cons_of_mem g0 hg2)

/-- Stripping preserves the absence of a character. -/
theorem pyStrip_not_mem (s : String) (c : Char) (h : c ∉ s.toList) :
    c ∉ (pyStrip s).toList := by
  intro hmem
  apply h
  have h1 : (pyStrip s).toList =
      ((s.toList.dropWhile isPySpace).reverse.dropWhile isPySpace).reverse := rfl
  rw [h1, List.mem_reverse] at hmem
  have h2 := (List.dropWhile_sublist (l := (s.toList.dropWhile isPySpace).reverse)
    (p := isPySpace)).subset hmem
  rw [List.mem_reverse] at h2
  exact (List.dropWhile_sublist (l := s.toList) (p := isPySpace)).subset h2

/-- The first forwarded-for piece contains no comma. -/
theorem firstXff_no_comma (xff : String) : ',' ∉ (firstXff xff).toList := by
  unfold firstXff
  apply pyStrip_not_mem
  obtain ⟨g0, gs0, heq⟩ :
      ∃ g0 gs0, splitOnComma xff.toList = g0 :: gs0 := by
    cases hrec : splitOnComma xff.toList with
    | nil => exact absurd hrec (splitOnComma_ne_nil _)
    | cons a b => exact ⟨a, b, rfl⟩
  rw [heq]
  have : (String.mk g0).toList = g0 := rfl
  rw [List.headD_cons, this]
  exact splitOnComma_no_comma xff.toList g0 (heq ▸ List.mem_cons_self g0 gs0)

/-- Boolean membership check agrees with list membership. -/
theorem contains_eq_false_of_not_mem (l : List Char) (c : Char) (h : c ∉ l) :
    l.contains c = false := by
  simpa using h

/- ---------------------------------------------------------------- -/
/- Claim theorems                                                   -/
/- ---------------------------------------------------------------- -/

/-- C1: the caller trace of `send_to_treblle` contains a blocking wait on
the delivery future — `future.result(timeout=3)` makes the request-serving
thread wait (up to 3 seconds) on the network I/O of the delivery attempt,
contradicting the non-blocking submit contract. -/
theorem c1_send_to_treblle_blocks_caller :
    sendToTreblleCallerTrace.any isBlockingWait = true ∧
    CallerAction.awaitFutureResult 3 ∈ sendToTreblleCallerTrace := by
  decide

/-- C3: for every non-streamed response whose body exceeds the 2 MiB
ceiling, `handle_response` appends exactly the one `E_USER_ERROR` record,
records body `{}` and size 0, whether or not a response transformer is
configured, so the oversized bytes never reach the payload. -/
theorem c3_oversized_response_dropped (hidden : List String)
    (transformer : Option (List Nat → TransOutcome))
    (loads : List Nat → Option PyVal) (data : List Nat)
    (h : data.length > MAX_RESPONSE_BODY_SIZE) :
    handleResponseBody hidden transformer loads false data =
      (emptyDict, 0, [eUserErrorRecord]) := by
  cases transformer with
  | none => simp [handleResponseBody, h]
  | some t => simp [handleResponseBody, h]

/-- Witness for C3 at a concrete 2 MiB + 1 body with no transformer. -/
theorem c3_oversized_response_dropped_witness :
    (List.replicate (MAX_RESPONSE_BODY_SIZE + 1) (0 : Nat)).length >
        MAX_RESPONSE_BODY_SIZE ∧
    handleResponseBody [] Option.none (fun _ => Option.none) false
        (List.replicate (MAX_RESPONSE_BODY_SIZE + 1) (0 : Nat)) =
      (emptyDict, 0, [eUserErrorRecord]) :=
  ⟨by simp, c3_oversized_response_dropped [] Option.none (fun _ => Option.none)
    _ (by simp)⟩

/-- C9: submitting n payloads causes exactly n delivery attempts; a single
override endpoint is always selected, and otherwise the k-th attempt takes
the k-th (mod 3) backend host, so consecutive attempts that do not wrap hit
different endpoints. -/
theorem c9_round_robin_rotation (customUrl : Option String) (n k : Nat) :
    (deliveryAttempts customUrl n).length = n ∧
    (∀ j, j < n → (deliveryAttempts customUrl n).getD j "" =
      deliveryEndpoint customUrl j) ∧
    (∀ u, customUrl = Option.some u → deliveryEndpoint customUrl k = u) ∧
    (customUrl = Option.none →
      deliveryEndpoint customUrl k = BACKEND_HOSTS.getD (k % 3) "") ∧
    (customUrl = Option.none → k % 3 ≠ 2 →
      deliveryEndpoint customUrl k ≠ deliveryEndpoint customUrl (k + 1)) := by
  refine ⟨by simp [deliveryAttempts], ?_, ?_, ?_, ?_⟩
  · intro j hj
    simp [deliveryAttempts, List.getD_eq_getElem?_getD, List.getElem?_map,
      List.getElem?_range, hj]
  · intro u hu
    subst hu
    simp [deliveryEndpoint, hostsList, Nat.mod_one]
  · intro hc
    subst hc
    rfl
  · intro hc hk
    subst hc
    show BACKEND_HOSTS.getD (k % 3) "" ≠ BACKEND_HOSTS.getD ((k + 1) % 3) ""
    have h3 : k % 3 = 0 ∨ k % 3 = 1 := by omega
    have h4 : (k + 1) % 3 = k % 3 + 1 := by omega
    rcases h3 with h0 | h1
    · rw [h0, h4, h0]; decide
    · rw [h1, h4, h1]; decide

/-- Witness for C9 at five submissions over the default host list and one
over an override endpoint. -/
theorem c9_round_robin_rotation_witness :
    (deliveryAttempts Option.none 5).length = 5 ∧
    (1 < 5 ∧ (deliveryAttempts Option.none 5).getD 1 "" =
      deliveryEndpoint Option.none 1) ∧
    deliveryEndpoint (Option.some "https://example.test") 7 =
      "https://example.test" ∧
    (0 % 3 ≠ 2 ∧ deliveryEndpoint Option.none 0 ≠ deliveryEndpoint Option.none 1) :=
  ⟨(c9_round_robin_rotation Option.none 5 0).1,
   ⟨by decide, (c9_round_robin_rotation Option.none 5 0).2.1 1 (by decide)⟩,
   (c9_round_robin_rotation (Option.some "https://example.test") 5 7).2.2.1 _ rfl,
   ⟨by decide, (c9_round_robin_rotation Option.none 5 0).2.2.2.2 rfl (by decide)⟩⟩

/-- C10: a string shorter than 100 characters is never classified as a
base64 image, so a short data-URI image under a hidden key is masked to an
equal-length star run, never to the placeholder. -/
theorem c10_short_string_not_image (s : String) (hidden : List String)
    (k : String) (rest : PyDict) (hs : s.length < 100)
    (hk : pyLower k ∈ hidden) :
    isBase64Image s = false ∧
    maskDict hidden (PyDict.cons k (PyVal.str s) rest) =
      PyDict.cons k (PyVal.str (stars s.length)) (maskDict hidden rest) ∧
    (stars s.length).length = s.length := by
  have himg : isBase64Image s = false := by simp [isBase64Image, hs]
  refine ⟨himg, ?_, stars_length _⟩
  simp [maskDict, hk, maskHiddenValue, pyStr, himg]

/-- Witness for C10 at a 26-character data-URI image string. -/
theorem c10_short_string_not_image_witness :
    ("data:image/png;base64,AAAA" : String).length < 100 ∧
    pyLower "img" ∈ ["img"] ∧
    (isBase64Image "data:image/png;base64,AAAA" = false ∧
     maskDict ["img"]
        (PyDict.cons "img" (PyVal.str "data:image/png;base64,AAAA") PyDict.nil) =
      PyDict.cons "img"
        (PyVal.str (stars ("data:image/png;base64,AAAA" : String).length))
        (maskDict ["img"] PyDict.nil) ∧
     (stars ("data:image/png;base64,AAAA" : String).length).length =
       ("data:image/png;base64,AAAA" : String).length) :=
  ⟨by decide, by decide,
   c10_short_string_not_image "data:image/png;base64,AAAA" ["img"] "img"
     PyDict.nil (by decide) (by decide)⟩

/-- C6: the value under a hidden key is masked to the fixed placeholder
when classified as a base64 image and otherwise to a star run whose length
equals the length of the value's string representation. -/
theorem c6_hidden_value_star_run (hidden : List String) (k : String)
    (v : PyVal) (rest : PyDict) (hk : pyLower k ∈ hidden) :
    maskDict hidden (PyDict.cons k v rest) =
      PyDict.cons k
        (PyVal.str (if isBase64Image (pyStr v) then imagePlaceholder
          else stars (pyStr v).length))
        (maskDict hidden rest) ∧
    (stars (pyStr v).length).length = (pyStr v).length ∧
    (stars (pyStr v).length).toList = List.replicate (pyStr v).length '*' := by
  refine ⟨?_, stars_length _, rfl⟩
  by_cases hb : isBase64Image (pyStr v) <;>
    simp [maskDict, hk, maskHiddenValue, hb]

/-- Witness for C6 at a hidden password entry. -/
theorem c6_hidden_value_star_run_witness :
    pyLower "Password" ∈ ["password"] ∧
    (maskDict ["password"]
        (PyDict.cons "Password" (PyVal.str "hunter2") PyDict.nil) =
      PyDict.cons "Password"
        (PyVal.str (if isBase64Image (pyStr (PyVal.str "hunter2")) then
          imagePlaceholder else stars (pyStr (PyVal.str "hunter2")).length))
        (maskDict ["password"] PyDict.nil) ∧
     (stars (pyStr (PyVal.str "hunter2")).length).length =
       (pyStr (PyVal.str "hunter2")).length ∧
     (stars (pyStr (PyVal.str "hunter2")).length).toList =
       List.replicate (pyStr (PyVal.str "hunter2")).length '*') :=
  ⟨by decide,
   c6_hidden_value_star_run ["password"] "Password" (PyVal.str "hunter2")
     PyDict.nil (by decide)⟩

/-- C8 counterexample: on the response side the authorization header is
starred in full even with auth-header masking enabled, unlike the request
side, which preserves the `Bearer` scheme token. -/
theorem c8_counterexample_response_auth :
    maskResponseHeaderValue "Authorization" "Bearer abc123" ≠
      maskRequestHeaderValue true "Authorization" "Bearer abc123" := by
  decide

/-- C8 amended: response headers in the fixed sensitive set are always
masked to a star run of the full value length, with no scheme-preserving
special case for the authorization header; other response headers pass the
pre-pass unchanged. -/
theorem c8_amended_response_headers_starred (name value : String) :
    (pyLower name ∈ SENSITIVE_HEADERS →
      maskResponseHeaderValue name value = stars value.length) ∧
    (pyLower name ∉ SENSITIVE_HEADERS →
      maskResponseHeaderValue name value = value) := by
  constructor <;> intro h <;> simp [maskResponseHeaderValue, h]

/-- Witness for the amended C8 at the authorization header. -/
theorem c8_amended_response_headers_starred_witness :
    pyLower "Authorization" ∈ SENSITIVE_HEADERS ∧
    maskResponseHeaderValue "Authorization" "Bearer abc123" =
      stars ("Bearer abc123" : String).length :=
  ⟨by decide,
   (c8_amended_response_headers_starred "Authorization" "Bearer abc123").1
     (by decide)⟩

/-- Recognized auth schemes contain no space. -/
theorem scheme_no_space (scheme : String) (h : scheme ∈ COMMON_AUTH_SCHEMES) :
    ' ' ∉ scheme.toList := by
  have h2 : scheme = "Basic" ∨ scheme = "Bearer" ∨ scheme = "Digest" ∨
      scheme = "Negotiate" ∨ scheme = "OAuth" ∨ scheme = "AWS4-HMAC-SHA256" ∨
      scheme = "HOBA" ∨ scheme = "Mutual" := by
    simpa [COMMON_AUTH_SCHEMES] using h
  rcases h2 with rfl | rfl | rfl | rfl | rfl | rfl | rfl | rfl <;> decide

/-- Concatenation with a space separator, as a character list. -/
theorem toList_space_append (a b : String) :
    (a ++ " " ++ b).toList = a.toList ++ ' ' :: b.toList := by
  rw [toList_append, toList_append]
  simp

/-- C5: with auth-header masking enabled, a header made of a recognized
scheme, a space and a credential keeps the scheme and stars the credential
at its length; a header without a space, or with an unrecognized scheme, is
starred in full. -/
theorem c5_auth_scheme_masking (scheme value other : String)
    (hscheme : scheme ∈ COMMON_AUTH_SCHEMES)
    (hother : ' ' ∉ other.toList) :
    maskAuthHeader (scheme ++ " " ++ value) =
      scheme ++ " " ++ stars value.length ∧
    maskAuthHeader other = stars other.length ∧
    (∀ s v : String, s ∉ COMMON_AUTH_SCHEMES → ' ' ∉ s.toList →
      maskAuthHeader (s ++ " " ++ v) = stars (s ++ " " ++ v).length) := by
  refine ⟨?_, ?_, ?_⟩
  · rw [maskAuthHeader, toList_space_append,
      splitFirstSpace_append _ _ (scheme_no_space scheme hscheme)]
    simp only [mk_toList]
    rw [if_pos hscheme, toList_length]
  · rw [maskAuthHeader, splitFirstSpace_none _ hother]
  · intro s v hs hsp
    rw [maskAuthHeader, toList_space_append, splitFirstSpace_append _ _ hsp]
    simp only [mk_toList]
    rw [if_neg hs]

/-- Witness for C5 at `Bearer abc123` and the space-free header `garbled`. -/
theorem c5_auth_scheme_masking_witness :
    "Bearer" ∈ COMMON_AUTH_SCHEMES ∧
    ' ' ∉ ("garbled" : String).toList ∧
    (maskAuthHeader ("Bearer" ++ " " ++ "abc123") =
        "Bearer" ++ " " ++ stars ("abc123" : String).length ∧
     maskAuthHeader "garbled" = stars ("garbled" : String).length) :=
  ⟨by decide, by decide,
   ⟨(c5_auth_scheme_masking "Bearer" "abc123" "garbled" (by decide)
       (by decide)).1,
    (c5_auth_scheme_masking "Bearer" "abc123" "garbled" (by decide)
       (by decide)).2.1⟩⟩

/-- C2 counterexample: a non-IP first forwarded-for value with a valid
remote address yields `bogon`, not the remote address claimed. -/
theorem c2_counterexample_invalid_xff :
    computeRequestIp "not-an-ip" (Option.some "8.8.8.8") = "bogon" ∧
    ("bogon" : String) ≠ "8.8.8.8" := by
  constructor <;> decide

/-- C2 amended: the stripped first comma-separated forwarded-for value is
used whenever it is non-empty — valid IPv4 literals pass through and
anything else becomes `bogon` with no fallback to the remote address; the
remote address is consulted only when that first value is empty, with the
same validate-or-`bogon` rule; the result is always one of these strings,
never null. -/
theorem c2_amended_client_ip (xff : String) (remote : Option String) :
    (firstXff xff ≠ "" →
      computeRequestIp xff remote =
        (if matchesIPv4 (firstXff xff) then firstXff xff else "bogon")) ∧
    (firstXff xff = "" → remote = Option.none →
      computeRequestIp xff remote = "bogon") ∧
    (firstXff xff = "" → ∀ r, remote = Option.some r → ',' ∉ r.toList →
      computeRequestIp xff remote =
        (if (r != "") && matchesIPv4 r then r else "bogon")) := by
  refine ⟨?_, ?_, ?_⟩
  · intro h1
    have hcon : (firstXff xff).toList.contains ',' = false :=
      contains_eq_false_of_not_mem _ _ (firstXff_no_comma xff)
    by_cases hm : matchesIPv4 (firstXff xff) <;>
      simp [computeRequestIp, h1, hcon, hm] <;>
      exact fun hx => absurd hx (firstXff_no_comma xff)
  · intro h1 h2
    subst h2
    simp only [computeRequestIp, h1]
    decide
  · intro h1 r h2 h3
    subst h2
    by_cases hr : r = ""
    · subst hr
      simp only [computeRequestIp, h1]
      decide
    · have hcon : r.toList.contains ',' = false :=
        contains_eq_false_of_not_mem _ _ h3
      by_cases hm : matchesIPv4 r <;>
        simp [computeRequestIp, h1, hr, hcon, hm] <;>
        exact fun hx => absurd hx h3

/-- Witness for the amended C2: a forwarded-for list headed by a valid
literal passes through, and an empty forwarded-for header falls back to
the remote address. -/
theorem c2_amended_client_ip_witness :
    (firstXff "10.0.0.5, 9.9.9.9" ≠ "" ∧
     computeRequestIp "10.0.0.5, 9.9.9.9" Option.none =
       (if matchesIPv4 (firstXff "10.0.0.5, 9.9.9.9") then
         firstXff "10.0.0.5, 9.9.9.9" else "bogon")) ∧
    (firstXff "" = "" ∧ ',' ∉ ("8.8.8.8" : String).toList ∧
     computeRequestIp "" (Option.some "8.8.8.8") =
       (if (("8.8.8.8" : String) != "") && matchesIPv4 "8.8.8.8" then
         "8.8.8.8" else "bogon")) :=
  ⟨⟨by decide,
    (c2_amended_client_ip "10.0.0.5, 9.9.9.9" Option.none).1 (by decide)⟩,
   ⟨by decide, by decide,
    (c2_amended_client_ip "" (Option.some "8.8.8.8")).2.2 (by decide)
      "8.8.8.8" rfl (by decide)⟩⟩

/-- C7: a transform hook that raises (or returns a value on which the
`dumps` probe raises) contributes exactly one ErrorRecord carrying the
exception's type, joined args and innermost frame, with `{}` substituted
for the body, on both the request and the response side; with no hook
configured, a direct parse failure yields `{}` and no ErrorRecord. -/
theorem c7_transform_hook_error_contract (hidden : List String)
    (t : List Nat → TransOutcome) (loads : List Nat → Option PyVal)
    (data : List Nat) (cl : Option Nat) (limit : Nat) (e : PyExc) :
    (cl.getD 0 < limit → t data = TransOutcome.raises e →
      handleRequestBody hidden (Option.some t) loads cl limit data =
        (emptyDict, [errRecordOf e])) ∧
    (cl.getD 0 < limit → t data = TransOutcome.okNonSerializable e →
      e.typeName ≠ "JSONDecodeError" →
      handleRequestBody hidden (Option.some t) loads cl limit data =
        (emptyDict, [errRecordOf e])) ∧
    (cl.getD 0 < limit → loads data = Option.none →
      handleRequestBody hidden Option.none loads cl limit data =
        (emptyDict, [])) ∧
    (data.length ≤ MAX_RESPONSE_BODY_SIZE → t data = TransOutcome.raises e →
      handleResponseBody hidden (Option.some t) loads false data =
        (emptyDict, data.length, [errRecordOf e])) ∧
    (data.length ≤ MAX_RESPONSE_BODY_SIZE → loads data = Option.none →
      handleResponseBody hidden Option.none loads false data =
        (emptyDict, data.length, [])) := by
  have hsize : ∀ {h : data.length ≤ MAX_RESPONSE_BODY_SIZE},
      ¬ data.length > MAX_RESPONSE_BODY_SIZE := fun {h} => by omega
  refine ⟨?_, ?_, ?_, ?_, ?_⟩
  · intro hcl ht
    simp [handleRequestBody, hcl, runBodyTransformer, ht, maskIfTruthy,
      isTruthy, emptyDict]
  · intro hcl ht hty
    simp [handleRequestBody, hcl, runBodyTransformer, ht, hty, maskIfTruthy,
      isTruthy, emptyDict]
  · intro hcl hl
    simp [handleRequestBody, hcl, hl, maskIfTruthy, isTruthy, emptyDict]
  · intro hle ht
    simp [handleResponseBody, hsize (h := hle), runBodyTransformer, ht,
      maskIfTruthy, isTruthy, emptyDict]
  · intro hle hl
    simp [handleResponseBody, hsize (h := hle), hl, maskIfTruthy, isTruthy,
      emptyDict]

/-- Witness for C7 at a hook raising `ValueError('boom')` on an empty body,
and at parse failures with no hook. -/
theorem c7_transform_hook_error_contract_witness :
    ((Option.some 0 : Option Nat).getD 0 < 10) ∧
    handleRequestBody []
        (Option.some (fun _ => TransOutcome.raises
          ⟨"ValueError", ["boom"], "app.py", 7⟩))
        (fun _ => Option.none) (Option.some 0) 10 [] =
      (emptyDict, [errRecordOf ⟨"ValueError", ["boom"], "app.py", 7⟩]) ∧
    handleRequestBody [] Option.none (fun _ => Option.none) (Option.some 0)
        10 [] = (emptyDict, []) ∧
    handleResponseBody []
        (Option.some (fun _ => TransOutcome.raises
          ⟨"ValueError", ["boom"], "app.py", 7⟩))
        (fun _ => Option.none) false [] =
      (emptyDict, 0, [errRecordOf ⟨"ValueError", ["boom"], "app.py", 7⟩]) ∧
    handleResponseBody [] Option.none (fun _ => Option.none) false [] =
      (emptyDict, 0, []) :=
  ⟨by decide,
   (c7_transform_hook_error_contract []
     (fun _ => TransOutcome.raises ⟨"ValueError", ["boom"], "app.py", 7⟩)
     (fun _ => Option.none) [] (Option.some 0) 10
     ⟨"ValueError", ["boom"], "app.py", 7⟩).1 (by decide) rfl,
   (c7_transform_hook_error_contract []
     (fun _ => TransOutcome.raises ⟨"ValueError", ["boom"], "app.py", 7⟩)
     (fun _ => Option.none) [] (Option.some 0) 10
     ⟨"ValueError", ["boom"], "app.py", 7⟩).2.2.1 (by decide) rfl,
   (c7_transform_hook_error_contract []
     (fun _ => TransOutcome.raises ⟨"ValueError", ["boom"], "app.py", 7⟩)
     (fun _ => Option.none) [] (Option.some 0) 10
     ⟨"ValueError", ["boom"], "app.py", 7⟩).2.2.2.1 (by decide) rfl,
   (c7_transform_hook_error_contract []
     (fun _ => TransOutcome.raises ⟨"ValueError", ["boom"], "app.py", 7⟩)
     (fun _ => Option.none) [] (Option.some 0) 10
     ⟨"ValueError", ["boom"], "app.py", 7⟩).2.2.2.2 (by decide) rfl⟩

set_option maxRecDepth 4096 in
/-- C4 counterexample: masking is not idempotent on a hidden base64 image —
the first pass yields the 44-character placeholder and the second pass
turns that placeholder into 44 stars. -/
theorem c4_counterexample_image_not_idempotent :
    maskData ["secret"] (maskData ["secret"]
        (PyVal.dict (PyDict.cons "secret" (PyVal.str imgStr) PyDict.nil))) ≠
      maskData ["secret"]
        (PyVal.dict (PyDict.cons "secret" (PyVal.str imgStr) PyDict.nil)) :=
  fun h => absurd (congrArg firstStrVal h) (by decide)

/-- C4 amended: masking is idempotent on every nested value none of whose
hidden-key values is classified as a base64 image; in general re-masking
maps each hidden key to a star run exactly as long as the first masked
output, so lengths never grow or shrink — but a hidden image value first
becomes the fixed placeholder and then a 44-star run, so full idempotence
fails only there. -/
theorem c4_amended_mask_idempotent (hidden : List String) (v : PyVal)
    (h : noHiddenImage hidden v = true) :
    maskData hidden (maskData hidden v) = maskData hidden v ∧
    (∀ w : PyVal, maskHiddenValue (maskHiddenValue w) =
      PyVal.str (stars (pyStr (maskHiddenValue w)).length)) :=
  ⟨maskData_idem hidden v h, fun w => maskHiddenValue_stable w⟩

/-- Witness for the amended C4 at a hidden password mapping. -/
theorem c4_amended_mask_idempotent_witness :
    noHiddenImage ["password"]
        (PyVal.dict (PyDict.cons "password" (PyVal.str "secret") PyDict.nil)) =
      true ∧
    maskData ["password"] (maskData ["password"]
        (PyVal.dict (PyDict.cons "password" (PyVal.str "secret") PyDict.nil))) =
      maskData ["password"]
        (PyVal.dict (PyDict.cons "password" (PyVal.str "secret") PyDict.nil)) :=
  ⟨by decide,
   (c4_amended_mask_idempotent ["password"]
     (PyVal.dict (PyDict.cons "password" (PyVal.str "secret") PyDict.nil))
     (by decide)).1⟩
